import Mathlib

/-!
Verification development for supercooling.py (growth of the inner core with
supercooling, after Huguet et al. 2018).  The Evolution class is embedded
shallowly: its material constants become a structure of real numbers, the
six per-sample state arrays become functions from sample index to real
value, and the two time-stepping loops become structural recursions.  The
external scipy routine fsolve is the one piece of non-repository code the
loops call; it is abstracted as an arbitrary function of type Solver, while
the residual system it is asked to solve (the local function func inside
icoregrowth) is embedded exactly.  Python reads a[i-1] at loop index i = 0,
which wraps around to the last array element; pyPrev models that.
-/

noncomputable section

/-- The six state arrays allocated in Evolution.__init__ (lines 41-46) and
re-zeroed by Evolution.reinitilization, one real value per sample index. -/
structure State where
  dric : ℕ → ℝ
  ric : ℕ → ℝ
  Tic : ℕ → ℝ
  supercooling : ℕ → ℝ
  Tis_center : ℕ → ℝ
  Tcmb : ℕ → ℝ

/-- All six state arrays read at one sample index, as a tuple in the order
dric, ric, Tic, supercooling, Tis_center, Tcmb.  Used to reason about the
stepping loops field-by-field. -/
def State.sample (s : State) (j : ℕ) : ℝ × ℝ × ℝ × ℝ × ℝ × ℝ :=
  (s.dric j, s.ric j, s.Tic j, s.supercooling j, s.Tis_center j, s.Tcmb j)

/-- Python index semantics of the access a[i-1] inside the stepping loops:
at loop index 0 it reads a[-1], the last element (index nt - 1); at any
later index i it reads element i - 1. -/
def pyPrev (nt i : ℕ) : ℕ := if i = 0 then nt - 1 else i - 1

/-- Material constants and time-grid data carried by an Evolution object
(lines 19-46 of supercooling.py). -/
structure Evolution where
  Qcmb : ℝ
  delta_T : ℝ
  longueur : ℝ
  rc : ℝ
  G : ℝ
  rhol : ℝ
  rho0 : ℝ
  u : ℝ
  cp : ℝ
  LFe : ℝ
  TFe0 : ℝ
  gamma : ℝ
  eta_c : ℝ
  Mc : ℝ
  Eg : ℝ
  nt : ℕ
  dt : ℝ

/-- Seconds per year, line 37: year = 365.25*3600*24. -/
def year : ℝ := 365.25 * 3600 * 24

/-- Evolution.__init__(delta_T, Qcmb): the Huguet et al. 2018 reference
constants, and the uniform time grid linspace(0, 500*year, 1000), whose
step is dt = time[1] - time[0] = 500*year/999. -/
def mkEvolution (delta_T Qcmb : ℝ) : Evolution :=
  { Qcmb := Qcmb
    delta_T := delta_T
    longueur := 6500e3
    rc := 3600e3
    G := 1e-4
    rhol := 12500
    rho0 := 11900
    u := 3e-4
    cp := 785
    LFe := 750e3
    TFe0 := 6500
    gamma := 1.5
    eta_c := 0.79
    Mc := 1.95e24
    Eg := 3e5
    nt := 1000
    dt := 500 * year / 999 }

/-- The numeric core of Evolution.icoregrowth: fsolve applied to the
residual system, returning the pair (dric/dt, Ti).  fsolve is external
library code, so the solver is abstracted as an arbitrary function of the
reference temperature T, the current radius ric and the concentration cc. -/
abbrev Solver := ℝ → ℝ → ℝ → ℝ × ℝ

namespace Evolution

/-- Evolution.T_is (lines 90-92): isentrope temperature profile,
T0 * exp(-(radius^2)/longueur^2), with T0 the temperature at the center. -/
def T_is (e : Evolution) (radius T0 : ℝ) : ℝ :=
  T0 * Real.exp (-(radius ^ 2) / e.longueur ^ 2)

/-- Evolution.T_Fe (lines 94-95): melting temperature of iron,
TFe0 * exp(-2*(1 - 1/3/gamma)*radius^2/longueur^2) - xi.  The Python
default xi = 0 is passed explicitly at every call site below. -/
def T_Fe (e : Evolution) (radius xi : ℝ) : ℝ :=
  e.TFe0 * Real.exp (-2 * (1 - 1 / 3 / e.gamma) * radius ^ 2 / e.longueur ^ 2) - xi

/-- The local variable T_center of both run methods (lines 58 and 74):
T_center = T_Fe(0., 0.) - delta_T. -/
def T_center (e : Evolution) : ℝ := e.T_Fe 0 0 - e.delta_T

/-- The local residual function func inside Evolution.icoregrowth
(lines 100-107), of the unknown pair y = (rd, Ti); fsolve searches for a
root of this system. -/
def func (e : Evolution) (T ric cc : ℝ) (y : ℝ × ℝ) : ℝ × ℝ :=
  let rd := y.1
  let Ti := y.2
  let Ta := e.T_is ric T
  let Tm := e.T_Fe ric cc
  (rd - e.G * (Tm - Ti) ^ 2,
   e.rho0 * (e.cp * (Tm - Ta) + e.LFe) * rd - e.rhol * e.cp * e.u * (Ti - Ta))

/-- Evolution.QLQG (lines 113-116): the term Q_L + Q_G,
(LFe + Eg) * rho0 * dricdt * Aic with Aic = 4*pi*ric^2. -/
def QLQG (e : Evolution) (dricdt ric : ℝ) : ℝ :=
  let Aic := 4 * Real.pi * ric ^ 2
  (e.LFe + e.Eg) * e.rho0 * dricdt * Aic

/-- Evolution.dTcmb (lines 118-119): eta_c/Mc/cp * (QLQG(dricdt, ric) - Qcmb).
Caveat on the embedding: Lean division is total with x/0 = 0, while the
Python expression raises ZeroDivisionError when cp = 0, so this definition
is faithful only away from cp = 0 (the program runs with cp = 785);
statements about a cp = 0 configuration therefore avoid the one method,
Evolution.run, that calls dTcmb. -/
def dTcmb (e : Evolution) (dricdt ric : ℝ) : ℝ :=
  e.eta_c / e.Mc / e.cp * (e.QLQG dricdt ric - e.Qcmb)

/-- Evolution.reinitilization (lines 48-54): every state array is replaced
by a fresh all-zero array; nothing is validated and nothing can fail. -/
def reinitilization (_e : Evolution) : State :=
  { dric := fun _ => 0
    ric := fun _ => 0
    Tic := fun _ => 0
    supercooling := fun _ => 0
    Tis_center := fun _ => 0
    Tcmb := fun _ => 0 }

/-- The assignments common to both run methods before their loops
(lines 57-63 and 73-79): reinitilization followed by the six index-0
initial conditions.  The ric array is not assigned and stays all zero. -/
def initConditions (e : Evolution) : State :=
  let s := e.reinitilization
  { s with
    dric := Function.update s.dric 0 (e.G * e.delta_T ^ 2)
    Tic := Function.update s.Tic 0 e.T_center
    supercooling := Function.update s.supercooling 0 e.delta_T
    Tis_center := Function.update s.Tis_center 0 e.T_center
    Tcmb := Function.update s.Tcmb 0 (e.T_is e.rc e.T_center) }

/-- One iteration of the loop of Evolution.run_constant_temperature
(lines 65-70) at loop index i: solve with the fixed temperature Tc and the
previous radius ric[i-1], store dric[i], Tic[i], the Euler update
ric[i] = ric[i-1] + dric*dt, and supercooling[i] = |T_Fe(ric[i]) - Tic|. -/
def stepConst (e : Evolution) (solve : Solver) (Tc : ℝ) (s : State) (i : ℕ) : State :=
  let dr := (solve Tc (s.ric (pyPrev e.nt i)) 0).1
  let Ti := (solve Tc (s.ric (pyPrev e.nt i)) 0).2
  let ricNew := s.ric (pyPrev e.nt i) + dr * e.dt
  { s with
    dric := Function.update s.dric i dr
    Tic := Function.update s.Tic i Ti
    ric := Function.update s.ric i ricNew
    supercooling := Function.update s.supercooling i |e.T_Fe ricNew 0 - Ti| }

/-- The first k iterations of the constant-temperature loop, started from
the initial conditions. -/
def loopConst (e : Evolution) (solve : Solver) (Tc : ℝ) : ℕ → State
  | 0 => e.initConditions
  | k + 1 => e.stepConst solve Tc (e.loopConst solve Tc k) k

/-- Evolution.run_constant_temperature (lines 56-70): initial conditions,
then the loop for i, t in enumerate(time[1:]), i.e. nt - 1 iterations at
loop indices 0 .. nt - 2, every one solving with the fixed T_center. -/
def run_constant_temperature (e : Evolution) (solve : Solver) : State :=
  e.loopConst solve e.T_center (e.nt - 1)

/-- One iteration of the loop of Evolution.run (lines 81-88) at loop index
i: solve with the previous evolving center temperature Tis_center[i-1] and
the previous radius ric[i-1]; after the Euler radius update also advance
Tis_center[i] = Tis_center[i-1] + dTcmb(dric, ric[i])*dt and derive
Tcmb[i] = T_is(ric[i], Tis_center[i]). -/
def stepEvol (e : Evolution) (solve : Solver) (s : State) (i : ℕ) : State :=
  let Tref := s.Tis_center (pyPrev e.nt i)
  let dr := (solve Tref (s.ric (pyPrev e.nt i)) 0).1
  let Ti := (solve Tref (s.ric (pyPrev e.nt i)) 0).2
  let ricNew := s.ric (pyPrev e.nt i) + dr * e.dt
  let TisNew := Tref + e.dTcmb dr ricNew * e.dt
  { dric := Function.update s.dric i dr
    Tic := Function.update s.Tic i Ti
    ric := Function.update s.ric i ricNew
    supercooling := Function.update s.supercooling i |e.T_Fe ricNew 0 - Ti|
    Tis_center := Function.update s.Tis_center i TisNew
    Tcmb := Function.update s.Tcmb i (e.T_is ricNew TisNew) }

/-- The first k iterations of the evolving-temperature loop, started from
the initial conditions. -/
def loopEvol (e : Evolution) (solve : Solver) : ℕ → State
  | 0 => e.initConditions
  | k + 1 => e.stepEvol solve (e.loopEvol solve k) k

/-- Evolution.run (lines 72-88): initial conditions, then nt - 1 evolving
iterations at loop indices 0 .. nt - 2. -/
def run (e : Evolution) (solve : Solver) : State :=
  e.loopEvol solve (e.nt - 1)

/-- At radius 0 the isentrope profile returns the center temperature. -/
theorem T_is_zero (e : Evolution) (T0 : ℝ) : e.T_is 0 T0 = T0 := by
  simp [T_is]

/-- At radius 0 with zero concentration offset the melting temperature is
the calibration constant TFe0. -/
theorem T_Fe_zero (e : Evolution) : e.T_Fe 0 0 = e.TFe0 := by
  simp [T_Fe]

end Evolution

/-- The returned value and warning behaviour of Evolution.icoregrowth after
the fsolve call (lines 108-111): out bundles the fsolve output a together
with the status ierr and message msg; if ierr is not 1 the triple is
printed (modelled as the list of printed records) and the pair a is
returned in every case. -/
structure FsolveOut where
  a : ℝ × ℝ
  ierr : ℤ
  msg : String

/-- Lines 109-111 of supercooling.py: print (ierr, a, msg) when ierr is not
1, then return a[0], a[1] unconditionally. -/
def icoregrowthReturn (out : FsolveOut) : (ℝ × ℝ) × List (ℤ × (ℝ × ℝ) × String) :=
  if out.ierr ≠ 1 then (out.a, [(out.ierr, out.a, out.msg)]) else (out.a, [])

/-- C10: At radius 0 the profile functions return their center calibration
values: isentropeTemperature(0, T) = T for every center temperature T, and
meltingTemperature(0, 0) = T_Fe0. -/
theorem profile_center_values (e : Evolution) (T0 : ℝ) :
    e.T_is 0 T0 = T0 ∧ e.T_Fe 0 0 = e.TFe0 :=
  ⟨e.T_is_zero T0, e.T_Fe_zero⟩

/-- C6: heatReleaseRate(dr, ric) equals (L_Fe + E_g)*rho_solid*dr*4*pi*ric^2,
centerTemperatureDerivative(dr, ric) equals eta_c/(M_c*cp) times
(heatReleaseRate - Q_cmb), and for positive eta_c, M_c, cp the derivative is
strictly positive when the heat release exceeds Q_cmb and strictly negative
when it is below Q_cmb. -/
theorem feedback_law (e : Evolution) (dr ric : ℝ) :
    e.QLQG dr ric = (e.LFe + e.Eg) * e.rho0 * dr * (4 * Real.pi * ric ^ 2)
    ∧ e.dTcmb dr ric = e.eta_c / (e.Mc * e.cp) * (e.QLQG dr ric - e.Qcmb)
    ∧ (0 < e.eta_c → 0 < e.Mc → 0 < e.cp →
        (e.Qcmb < e.QLQG dr ric → 0 < e.dTcmb dr ric)
        ∧ (e.QLQG dr ric < e.Qcmb → e.dTcmb dr ric < 0)) := by
  refine ⟨rfl, by rw [Evolution.dTcmb, div_div], fun he hm hc => ?_⟩
  have hcoef : 0 < e.eta_c / e.Mc / e.cp := by positivity
  constructor
  · intro hQ
    rw [Evolution.dTcmb]
    exact mul_pos hcoef (by linarith)
  · intro hQ
    rw [Evolution.dTcmb]
    exact mul_neg_of_pos_of_neg hcoef (by linarith)

/-- Witness for C6 at the default constants with Q_cmb = 0, dr = 1, ric = 1:
the heat release exceeds Q_cmb, so the center-temperature derivative is
strictly positive. -/
theorem feedback_law_witness : 0 < (mkEvolution 100 0).dTcmb 1 1 := by
  have h := feedback_law (mkEvolution 100 0) 1 1
  refine (h.2.2 (by norm_num [mkEvolution]) (by norm_num [mkEvolution])
    (by norm_num [mkEvolution])).1 ?_
  have hq : (mkEvolution 100 0).Qcmb = 0 := rfl
  have hQ : (mkEvolution 100 0).QLQG 1 1 = (750e3 + 3e5) * 11900 * 1 * (4 * Real.pi * 1 ^ 2) :=
    (feedback_law (mkEvolution 100 0) 1 1).1
  rw [hq, hQ]
  positivity

/-- C7: when fsolve reports a status other than success (ierr different
from 1), icoregrowth prints a warning record and still returns the
unconverged output; when the status is success nothing is printed; in no
case does it continue without returning the pair. -/
theorem icoregrowth_warning (out : FsolveOut) :
    (icoregrowthReturn out).1 = out.a
    ∧ (out.ierr ≠ 1 → (icoregrowthReturn out).2 = [(out.ierr, out.a, out.msg)])
    ∧ (out.ierr = 1 → (icoregrowthReturn out).2 = []) := by
  refine ⟨?_, fun h => ?_, fun h => ?_⟩
  · rw [icoregrowthReturn]
    by_cases h : out.ierr ≠ 1 <;> simp [h]
  · simp [icoregrowthReturn, h]
  · simp [icoregrowthReturn, h]

/-- Witness for C7 at a concrete non-success status ierr = 5: the warning
record is emitted and the unconverged pair (2, 3) is still returned. -/
theorem icoregrowth_warning_witness :
    (icoregrowthReturn ⟨(2, 3), 5, "no convergence"⟩).2 = [(5, ((2 : ℝ), (3 : ℝ)), "no convergence")]
    ∧ (icoregrowthReturn ⟨(2, 3), 5, "no convergence"⟩).1 = ((2 : ℝ), (3 : ℝ)) :=
  ⟨(icoregrowth_warning ⟨(2, 3), 5, "no convergence"⟩).2.1 (by decide),
   (icoregrowth_warning ⟨(2, 3), 5, "no convergence"⟩).1⟩

/-- An iteration of the constant-temperature loop at index i leaves every
array unchanged at any other index j. -/
theorem stepConst_sample_ne (e : Evolution) (solve : Solver) (Tc : ℝ) (s : State)
    (i j : ℕ) (h : j ≠ i) :
    (e.stepConst solve Tc s i).sample j = s.sample j := by
  simp [Evolution.stepConst, State.sample, Function.update_noteq h]

/-- An iteration of the evolving loop at index i leaves every array
unchanged at any other index j. -/
theorem stepEvol_sample_ne (e : Evolution) (solve : Solver) (s : State)
    (i j : ℕ) (h : j ≠ i) :
    (e.stepEvol solve s i).sample j = s.sample j := by
  simp [Evolution.stepEvol, State.sample, Function.update_noteq h]

/-- Indices not yet reached by the constant-temperature loop still carry
their initial-condition values: iterations 0 .. k - 1 write only indices
below k. -/
theorem loopConst_sample_of_le (e : Evolution) (solve : Solver) (Tc : ℝ) :
    ∀ k j, k ≤ j → (e.loopConst solve Tc k).sample j = e.initConditions.sample j
  | 0, _, _ => rfl
  | k + 1, j, h => by
      have hne : j ≠ k := by omega
      show (e.stepConst solve Tc (e.loopConst solve Tc k) k).sample j = _
      rw [stepConst_sample_ne e solve Tc _ k j hne]
      exact loopConst_sample_of_le e solve Tc k j (by omega)

/-- Indices not yet reached by the evolving loop still carry their
initial-condition values. -/
theorem loopEvol_sample_of_le (e : Evolution) (solve : Solver) :
    ∀ k j, k ≤ j → (e.loopEvol solve k).sample j = e.initConditions.sample j
  | 0, _, _ => rfl
  | k + 1, j, h => by
      have hne : j ≠ k := by omega
      show (e.stepEvol solve (e.loopEvol solve k) k).sample j = _
      rw [stepEvol_sample_ne e solve _ k j hne]
      exact loopEvol_sample_of_le e solve k j (by omega)

/-- Index i is written exactly once by the constant-temperature loop,
namely by iteration i; afterwards its value is the one produced by that
iteration applied to the state before iteration i. -/
theorem loopConst_sample_of_lt (e : Evolution) (solve : Solver) (Tc : ℝ) :
    ∀ k i, i < k →
      (e.loopConst solve Tc k).sample i
        = (e.stepConst solve Tc (e.loopConst solve Tc i) i).sample i
  | 0, i, h => absurd h (Nat.not_lt_zero i)
  | k + 1, i, h => by
      show (e.stepConst solve Tc (e.loopConst solve Tc k) k).sample i = _
      rcases Nat.lt_or_ge i k with hik | hik
      · rw [stepConst_sample_ne e solve Tc _ k i (by omega)]
        exact loopConst_sample_of_lt e solve Tc k i hik
      · have hik2 : i = k := by omega
        subst hik2
        rfl

/-- Index i is written exactly once by the evolving loop, namely by
iteration i. -/
theorem loopEvol_sample_of_lt (e : Evolution) (solve : Solver) :
    ∀ k i, i < k →
      (e.loopEvol solve k).sample i
        = (e.stepEvol solve (e.loopEvol solve i) i).sample i
  | 0, i, h => absurd h (Nat.not_lt_zero i)
  | k + 1, i, h => by
      show (e.stepEvol solve (e.loopEvol solve k) k).sample i = _
      rcases Nat.lt_or_ge i k with hik | hik
      · rw [stepEvol_sample_ne e solve _ k i (by omega)]
        exact loopEvol_sample_of_lt e solve k i hik
      · have hik2 : i = k := by omega
        subst hik2
        rfl

/-- Away from index 0 the initial conditions are the zeroed arrays. -/
theorem initConditions_sample_ne (e : Evolution) (j : ℕ) (hj : j ≠ 0) :
    e.initConditions.sample j = (0, 0, 0, 0, 0, 0) := by
  simp [Evolution.initConditions, Evolution.reinitilization, State.sample,
    Function.update_noteq hj]

/-- Unpacking of an all-zero sample tuple into the six array values. -/
theorem sample_all_zero {s : State} {j : ℕ} (h : s.sample j = (0, 0, 0, 0, 0, 0)) :
    s.dric j = 0 ∧ s.ric j = 0 ∧ s.Tic j = 0 ∧ s.supercooling j = 0
      ∧ s.Tis_center j = 0 ∧ s.Tcmb j = 0 := by
  simpa [State.sample, Prod.ext_iff] using h

/-- After a full constant-temperature run the last sample still holds its
initial-condition values: the loop never writes index nt - 1. -/
theorem run_const_last (e : Evolution) (solve : Solver) :
    (e.run_constant_temperature solve).sample (e.nt - 1)
      = e.initConditions.sample (e.nt - 1) :=
  loopConst_sample_of_le e solve e.T_center (e.nt - 1) (e.nt - 1) le_rfl

/-- After a full evolving run the last sample still holds its
initial-condition values: the loop never writes index nt - 1. -/
theorem run_evol_last (e : Evolution) (solve : Solver) :
    (e.run solve).sample (e.nt - 1) = e.initConditions.sample (e.nt - 1) :=
  loopEvol_sample_of_le e solve (e.nt - 1) (e.nt - 1) le_rfl

/-- First iteration of the constant-temperature loop: it reads the previous
radius at Python index -1, which is 0, and overwrites index 0 with the
solver output and the Euler update built from radius 0. -/
theorem run_const_step0 (e : Evolution) (solve : Solver) (h : 0 < e.nt - 1) :
    (e.run_constant_temperature solve).dric 0 = (solve e.T_center 0 0).1
    ∧ (e.run_constant_temperature solve).Tic 0 = (solve e.T_center 0 0).2
    ∧ (e.run_constant_temperature solve).ric 0 = (solve e.T_center 0 0).1 * e.dt
    ∧ (e.run_constant_temperature solve).supercooling 0
        = |e.T_Fe ((solve e.T_center 0 0).1 * e.dt) 0 - (solve e.T_center 0 0).2| := by
  simp only [Evolution.run_constant_temperature]
  have key := loopConst_sample_of_lt e solve e.T_center (e.nt - 1) 0 h
  simp only [Evolution.loopConst, Evolution.stepConst, Evolution.initConditions,
    Evolution.reinitilization, State.sample, Function.update_same, Prod.mk.injEq,
    zero_add] at key
  obtain ⟨k1, k2, k3, k4, -, -⟩ := key
  exact ⟨k1, k3, k2, k4⟩

/-- First iteration of the evolving loop: both the previous radius and the
previous center temperature are read at Python index -1, where the center
temperature is still 0 after reinitilization, so the first solve is made
with reference temperature 0 and radius 0, and its output overwrites the
index-0 initial conditions. -/
theorem run_evol_step0 (e : Evolution) (solve : Solver) (h2 : 2 ≤ e.nt) :
    (e.run solve).dric 0 = (solve 0 0 0).1
    ∧ (e.run solve).Tic 0 = (solve 0 0 0).2
    ∧ (e.run solve).ric 0 = (solve 0 0 0).1 * e.dt := by
  simp only [Evolution.run]
  have h : 0 < e.nt - 1 := by omega
  have hne : e.nt - 1 ≠ 0 := by omega
  have key := loopEvol_sample_of_lt e solve (e.nt - 1) 0 h
  have hp : pyPrev e.nt 0 = e.nt - 1 := by simp [pyPrev]
  simp only [Evolution.loopEvol, Evolution.stepEvol, Evolution.initConditions,
    Evolution.reinitilization, hp, State.sample, Function.update_same,
    Function.update_noteq hne, Prod.mk.injEq, zero_add] at key
  obtain ⟨k1, k2, k3, -, -, -⟩ := key
  exact ⟨k1, k3, k2⟩

/-- Interior iterations (loop index 1 .. nt - 2) of the constant-temperature
loop, read off the final state: the solver is called with the fixed center
temperature and the previous radius, the radius gets the explicit Euler
update, and the supercooling is the absolute undercooling at the new
radius. -/
theorem run_const_step (e : Evolution) (solve : Solver) (i : ℕ)
    (h1 : 1 ≤ i) (h2 : i < e.nt - 1) :
    (e.run_constant_temperature solve).dric i
        = (solve e.T_center ((e.run_constant_temperature solve).ric (i - 1)) 0).1
    ∧ (e.run_constant_temperature solve).Tic i
        = (solve e.T_center ((e.run_constant_temperature solve).ric (i - 1)) 0).2
    ∧ (e.run_constant_temperature solve).ric i
        = (e.run_constant_temperature solve).ric (i - 1)
          + (solve e.T_center ((e.run_constant_temperature solve).ric (i - 1)) 0).1 * e.dt
    ∧ (e.run_constant_temperature solve).supercooling i
        = |e.T_Fe ((e.run_constant_temperature solve).ric i) 0
            - (solve e.T_center ((e.run_constant_temperature solve).ric (i - 1)) 0).2| := by
  simp only [Evolution.run_constant_temperature]
  have hi0 : i ≠ 0 := by omega
  have a := loopConst_sample_of_lt e solve e.T_center i (i - 1) (by omega)
  have b := loopConst_sample_of_lt e solve e.T_center (e.nt - 1) (i - 1) (by omega)
  have hprev : (e.loopConst solve e.T_center i).ric (i - 1)
      = (e.loopConst solve e.T_center (e.nt - 1)).ric (i - 1) :=
    congrArg (fun t => t.2.1) (a.trans b.symm)
  have key := loopConst_sample_of_lt e solve e.T_center (e.nt - 1) i h2
  simp only [Evolution.stepConst, State.sample, Function.update_same,
    Prod.mk.injEq, pyPrev, if_neg hi0] at key
  rw [hprev] at key
  obtain ⟨k1, k2, k3, k4, -, -⟩ := key
  refine ⟨k1, k3, k2, ?_⟩
  rw [k2]
  exact k4

/-- Interior iterations (loop index 1 .. nt - 2) of the evolving loop, read
off the final state: the solver is called with the previous evolving center
temperature and the previous radius; after the Euler radius update the
center temperature is advanced by dTcmb and the boundary temperature is
derived from the isentrope. -/
theorem run_evol_step (e : Evolution) (solve : Solver) (i : ℕ)
    (h1 : 1 ≤ i) (h2 : i < e.nt - 1) :
    (e.run solve).dric i
        = (solve ((e.run solve).Tis_center (i - 1)) ((e.run solve).ric (i - 1)) 0).1
    ∧ (e.run solve).Tic i
        = (solve ((e.run solve).Tis_center (i - 1)) ((e.run solve).ric (i - 1)) 0).2
    ∧ (e.run solve).ric i
        = (e.run solve).ric (i - 1)
          + (solve ((e.run solve).Tis_center (i - 1)) ((e.run solve).ric (i - 1)) 0).1 * e.dt
    ∧ (e.run solve).supercooling i
        = |e.T_Fe ((e.run solve).ric i) 0
            - (solve ((e.run solve).Tis_center (i - 1)) ((e.run solve).ric (i - 1)) 0).2|
    ∧ (e.run solve).Tis_center i
        = (e.run solve).Tis_center (i - 1)
          + e.dTcmb ((solve ((e.run solve).Tis_center (i - 1)) ((e.run solve).ric (i - 1)) 0).1)
              ((e.run solve).ric i) * e.dt
    ∧ (e.run solve).Tcmb i
        = e.T_is ((e.run solve).ric i) ((e.run solve).Tis_center i) := by
  simp only [Evolution.run]
  have hi0 : i ≠ 0 := by omega
  have a := loopEvol_sample_of_lt e solve i (i - 1) (by omega)
  have b := loopEvol_sample_of_lt e solve (e.nt - 1) (i - 1) (by omega)
  have hab := a.trans b.symm
  have hprevR : (e.loopEvol solve i).ric (i - 1)
      = (e.loopEvol solve (e.nt - 1)).ric (i - 1) :=
    congrArg (fun t => t.2.1) hab
  have hprevT : (e.loopEvol solve i).Tis_center (i - 1)
      = (e.loopEvol solve (e.nt - 1)).Tis_center (i - 1) :=
    congrArg (fun t => t.2.2.2.2.1) hab
  have key := loopEvol_sample_of_lt e solve (e.nt - 1) i h2
  simp only [Evolution.stepEvol, State.sample, Function.update_same,
    Prod.mk.injEq, pyPrev, if_neg hi0] at key
  rw [hprevR, hprevT] at key
  obtain ⟨k1, k2, k3, k4, k5, k6⟩ := key
  refine ⟨k1, k3, k2, ?_, ?_, ?_⟩
  · rw [k2]
    exact k4
  · rw [k2]
    exact k5
  · rw [k2, k5]
    exact k6

/-- C2: in both run methods the loop starts at i = 0, so its first
iteration reads the previous state at Python index -1 (the last array
element, zero after reinitilization: radius 0, and in the evolving mode
also reference temperature 0) and its output overwrites the
initial-condition values stored at index 0; the loop writes indices
0 .. nt - 2 only, and index nt - 1 keeps its zero value. -/
theorem loop_index_offbyone (delta_T Qcmb : ℝ) (solve : Solver) :
    ((mkEvolution delta_T Qcmb).run_constant_temperature solve).dric 0
        = (solve (mkEvolution delta_T Qcmb).T_center 0 0).1
    ∧ ((mkEvolution delta_T Qcmb).run_constant_temperature solve).Tic 0
        = (solve (mkEvolution delta_T Qcmb).T_center 0 0).2
    ∧ ((mkEvolution delta_T Qcmb).run solve).Tic 0 = (solve 0 0 0).2
    ∧ ((mkEvolution delta_T Qcmb).run_constant_temperature solve).Tic
        ((mkEvolution delta_T Qcmb).nt - 1) = 0
    ∧ ((mkEvolution delta_T Qcmb).run solve).Tic
        ((mkEvolution delta_T Qcmb).nt - 1) = 0 := by
  have hnt : (mkEvolution delta_T Qcmb).nt = 1000 := rfl
  have c := run_const_step0 (mkEvolution delta_T Qcmb) solve (by omega)
  have ev := run_evol_step0 (mkEvolution delta_T Qcmb) solve (by omega)
  have hz := initConditions_sample_ne (mkEvolution delta_T Qcmb)
    ((mkEvolution delta_T Qcmb).nt - 1) (by omega)
  have z1 := sample_all_zero ((run_const_last (mkEvolution delta_T Qcmb) solve).trans hz)
  have z2 := sample_all_zero ((run_evol_last (mkEvolution delta_T Qcmb) solve).trans hz)
  exact ⟨c.1, c.2.1, ev.2.1, z1.2.2.1, z2.2.2.1⟩

/-- C3: after a complete run in either mode the terminal sample of every
array written by the loop (dric, Tic, ric, supercooling, and in evolving
mode also Tis_center and Tcmb) is still its zero-initialized value. -/
theorem terminal_samples_zero (delta_T Qcmb : ℝ) (solve : Solver) :
    ((mkEvolution delta_T Qcmb).run_constant_temperature solve).dric
        ((mkEvolution delta_T Qcmb).nt - 1) = 0
    ∧ ((mkEvolution delta_T Qcmb).run_constant_temperature solve).Tic
        ((mkEvolution delta_T Qcmb).nt - 1) = 0
    ∧ ((mkEvolution delta_T Qcmb).run_constant_temperature solve).ric
        ((mkEvolution delta_T Qcmb).nt - 1) = 0
    ∧ ((mkEvolution delta_T Qcmb).run_constant_temperature solve).supercooling
        ((mkEvolution delta_T Qcmb).nt - 1) = 0
    ∧ ((mkEvolution delta_T Qcmb).run solve).dric
        ((mkEvolution delta_T Qcmb).nt - 1) = 0
    ∧ ((mkEvolution delta_T Qcmb).run solve).Tic
        ((mkEvolution delta_T Qcmb).nt - 1) = 0
    ∧ ((mkEvolution delta_T Qcmb).run solve).ric
        ((mkEvolution delta_T Qcmb).nt - 1) = 0
    ∧ ((mkEvolution delta_T Qcmb).run solve).supercooling
        ((mkEvolution delta_T Qcmb).nt - 1) = 0
    ∧ ((mkEvolution delta_T Qcmb).run solve).Tis_center
        ((mkEvolution delta_T Qcmb).nt - 1) = 0
    ∧ ((mkEvolution delta_T Qcmb).run solve).Tcmb
        ((mkEvolution delta_T Qcmb).nt - 1) = 0 := by
  have hnt : (mkEvolution delta_T Qcmb).nt = 1000 := rfl
  have hz := initConditions_sample_ne (mkEvolution delta_T Qcmb)
    ((mkEvolution delta_T Qcmb).nt - 1) (by omega)
  have z1 := sample_all_zero ((run_const_last (mkEvolution delta_T Qcmb) solve).trans hz)
  have z2 := sample_all_zero ((run_evol_last (mkEvolution delta_T Qcmb) solve).trans hz)
  exact ⟨z1.1, z1.2.2.1, z1.2.1, z1.2.2.2.1,
    z2.1, z2.2.2.1, z2.2.1, z2.2.2.2.1, z2.2.2.2.2.1, z2.2.2.2.2.2⟩

/-- A concrete solver used by witnesses: it always reports growth rate 1
and interface temperature 0. -/
def constSolver : Solver := fun _ _ _ => (1, 0)

/-- C4: in constant-temperature mode every interior step (loop index
1 .. nt - 2) solves with the same fixed initial center temperature
T_center and the previous radius, updates the radius by explicit Euler
ric[i] = ric[i-1] + dr*dt, and records
supercooling[i] = |meltingTemperature(ric[i]) - Ti|. -/
theorem constant_mode_step (e : Evolution) (solve : Solver) (i : ℕ)
    (h1 : 1 ≤ i) (h2 : i ≤ e.nt - 2) :
    (e.run_constant_temperature solve).dric i
        = (solve e.T_center ((e.run_constant_temperature solve).ric (i - 1)) 0).1
    ∧ (e.run_constant_temperature solve).Tic i
        = (solve e.T_center ((e.run_constant_temperature solve).ric (i - 1)) 0).2
    ∧ (e.run_constant_temperature solve).ric i
        = (e.run_constant_temperature solve).ric (i - 1)
          + (solve e.T_center ((e.run_constant_temperature solve).ric (i - 1)) 0).1 * e.dt
    ∧ (e.run_constant_temperature solve).supercooling i
        = |e.T_Fe ((e.run_constant_temperature solve).ric i) 0
            - (solve e.T_center ((e.run_constant_temperature solve).ric (i - 1)) 0).2| :=
  run_const_step e solve i h1 (by omega)

/-- Witness for C4 at the i = 1 step of the default scenario with a
concrete solver. -/
theorem constant_mode_step_witness :
    ((mkEvolution 100 (1e-12)).run_constant_temperature constSolver).dric 1
        = (constSolver (mkEvolution 100 (1e-12)).T_center
            (((mkEvolution 100 (1e-12)).run_constant_temperature constSolver).ric 0) 0).1
    ∧ ((mkEvolution 100 (1e-12)).run_constant_temperature constSolver).Tic 1
        = (constSolver (mkEvolution 100 (1e-12)).T_center
            (((mkEvolution 100 (1e-12)).run_constant_temperature constSolver).ric 0) 0).2
    ∧ ((mkEvolution 100 (1e-12)).run_constant_temperature constSolver).ric 1
        = ((mkEvolution 100 (1e-12)).run_constant_temperature constSolver).ric 0
          + (constSolver (mkEvolution 100 (1e-12)).T_center
              (((mkEvolution 100 (1e-12)).run_constant_temperature constSolver).ric 0) 0).1
            * (mkEvolution 100 (1e-12)).dt
    ∧ ((mkEvolution 100 (1e-12)).run_constant_temperature constSolver).supercooling 1
        = |(mkEvolution 100 (1e-12)).T_Fe
              (((mkEvolution 100 (1e-12)).run_constant_temperature constSolver).ric 1) 0
            - (constSolver (mkEvolution 100 (1e-12)).T_center
                (((mkEvolution 100 (1e-12)).run_constant_temperature constSolver).ric 0) 0).2| :=
  constant_mode_step (mkEvolution 100 (1e-12)) constSolver 1 le_rfl
    (by norm_num [mkEvolution])

/-- C5: in evolving mode every interior step (loop index 1 .. nt - 2)
solves with the previous evolving center temperature Tis_center[i-1] (not
the fixed initial value) and the previous radius; after the Euler radius
update it advances Tis_center[i] = Tis_center[i-1]
+ centerTemperatureDerivative(dr, ric[i])*dt and derives
Tcmb[i] = isentropeTemperature(ric[i], Tis_center[i]). -/
theorem evolving_mode_step (e : Evolution) (solve : Solver) (i : ℕ)
    (h1 : 1 ≤ i) (h2 : i ≤ e.nt - 2) :
    (e.run solve).dric i
        = (solve ((e.run solve).Tis_center (i - 1)) ((e.run solve).ric (i - 1)) 0).1
    ∧ (e.run solve).Tic i
        = (solve ((e.run solve).Tis_center (i - 1)) ((e.run solve).ric (i - 1)) 0).2
    ∧ (e.run solve).ric i
        = (e.run solve).ric (i - 1)
          + (solve ((e.run solve).Tis_center (i - 1)) ((e.run solve).ric (i - 1)) 0).1 * e.dt
    ∧ (e.run solve).supercooling i
        = |e.T_Fe ((e.run solve).ric i) 0
            - (solve ((e.run solve).Tis_center (i - 1)) ((e.run solve).ric (i - 1)) 0).2|
    ∧ (e.run solve).Tis_center i
        = (e.run solve).Tis_center (i - 1)
          + e.dTcmb ((solve ((e.run solve).Tis_center (i - 1)) ((e.run solve).ric (i - 1)) 0).1)
              ((e.run solve).ric i) * e.dt
    ∧ (e.run solve).Tcmb i
        = e.T_is ((e.run solve).ric i) ((e.run solve).Tis_center i) :=
  run_evol_step e solve i h1 (by omega)

/-- Witness for C5 at the i = 1 step of the default scenario with a
concrete solver. -/
theorem evolving_mode_step_witness :
    ((mkEvolution 100 (1e-12)).run constSolver).dric 1
        = (constSolver (((mkEvolution 100 (1e-12)).run constSolver).Tis_center 0)
            (((mkEvolution 100 (1e-12)).run constSolver).ric 0) 0).1
    ∧ ((mkEvolution 100 (1e-12)).run constSolver).Tic 1
        = (constSolver (((mkEvolution 100 (1e-12)).run constSolver).Tis_center 0)
            (((mkEvolution 100 (1e-12)).run constSolver).ric 0) 0).2
    ∧ ((mkEvolution 100 (1e-12)).run constSolver).ric 1
        = ((mkEvolution 100 (1e-12)).run constSolver).ric 0
          + (constSolver (((mkEvolution 100 (1e-12)).run constSolver).Tis_center 0)
              (((mkEvolution 100 (1e-12)).run constSolver).ric 0) 0).1
            * (mkEvolution 100 (1e-12)).dt
    ∧ ((mkEvolution 100 (1e-12)).run constSolver).supercooling 1
        = |(mkEvolution 100 (1e-12)).T_Fe
              (((mkEvolution 100 (1e-12)).run constSolver).ric 1) 0
            - (constSolver (((mkEvolution 100 (1e-12)).run constSolver).Tis_center 0)
                (((mkEvolution 100 (1e-12)).run constSolver).ric 0) 0).2|
    ∧ ((mkEvolution 100 (1e-12)).run constSolver).Tis_center 1
        = ((mkEvolution 100 (1e-12)).run constSolver).Tis_center 0
          + (mkEvolution 100 (1e-12)).dTcmb
              ((constSolver (((mkEvolution 100 (1e-12)).run constSolver).Tis_center 0)
                  (((mkEvolution 100 (1e-12)).run constSolver).ric 0) 0).1)
              (((mkEvolution 100 (1e-12)).run constSolver).ric 1)
            * (mkEvolution 100 (1e-12)).dt
    ∧ ((mkEvolution 100 (1e-12)).run constSolver).Tcmb 1
        = (mkEvolution 100 (1e-12)).T_is
            (((mkEvolution 100 (1e-12)).run constSolver).ric 1)
            (((mkEvolution 100 (1e-12)).run constSolver).Tis_center 1) :=
  evolving_mode_step (mkEvolution 100 (1e-12)) constSolver 1 le_rfl
    (by norm_num [mkEvolution])

/-- C1: code defect in both run methods.  In the ΔT = 100, Qcmb = 1e-12
scenario the initial-condition values written at index 0 do not survive
the run: the first loop iteration overwrites Tic[0] with the
solver output (in run_constant_temperature the solve is made at
temperature T_center and radius 0, in run even at temperature 0), and no
exact root of the step-0 residual system has interface temperature equal
to the claimed value meltingTemperature(0) - 100 = T_center, so a
converged solver cannot restore it: the residual system at
Ti = T_center is unsatisfiable for every growth rate dr. -/
theorem step0_values_overwritten (solve : Solver) :
    ((mkEvolution 100 (1e-12)).run_constant_temperature solve).Tic 0
        = (solve ((mkEvolution 100 (1e-12)).T_center) 0 0).2
    ∧ ((mkEvolution 100 (1e-12)).run solve).Tic 0 = (solve 0 0 0).2
    ∧ ∀ dr : ℝ,
        (mkEvolution 100 (1e-12)).func ((mkEvolution 100 (1e-12)).T_center) 0 0
            (dr, (mkEvolution 100 (1e-12)).T_center) ≠ (0, 0) := by
  have hnt : (mkEvolution (100:ℝ) (1e-12)).nt = 1000 := rfl
  refine ⟨(run_const_step0 (mkEvolution 100 (1e-12)) solve (by omega)).2.1,
    (run_evol_step0 (mkEvolution 100 (1e-12)) solve (by omega)).2.1, ?_⟩
  intro dr h
  have hTc : (mkEvolution (100:ℝ) (1e-12)).T_center = 6400 := by
    rw [Evolution.T_center, Evolution.T_Fe_zero]
    norm_num [mkEvolution]
  have hTa := Evolution.T_is_zero (mkEvolution (100:ℝ) (1e-12))
    ((mkEvolution (100:ℝ) (1e-12)).T_center)
  have hTm := Evolution.T_Fe_zero (mkEvolution (100:ℝ) (1e-12))
  simp only [Evolution.func, hTa, hTm] at h
  rw [hTc] at h
  simp only [Prod.mk.injEq] at h
  obtain ⟨h1, h2⟩ := h
  norm_num [mkEvolution] at h1 h2
  linarith

/-- A concrete solver whose output satisfies the first residual equation
exactly, used in witnesses: it reports interface temperature T and the
kinetic growth rate G*(T_Fe(r, c) - T)^2. -/
def gSolve (d q : ℝ) : Solver := fun T r c =>
  ((mkEvolution d q).G * ((mkEvolution d q).T_Fe r c - T) ^ 2, T)

/-- C9: in constant-temperature mode with Qcmb fixed and initial
undercooling ΔT > 0, for any solver whose reported growth rate satisfies
the kinetic growth law (the first residual equation, as every exactly
converged solve does), the radius series is non-decreasing in the step
index over the populated samples 0 .. nt - 2. -/
theorem ric_nondecreasing (d q : ℝ) (solve : Solver) (hd : 0 < d)
    (hsolve : ∀ T r c : ℝ, (solve T r c).1
        = (mkEvolution d q).G * ((mkEvolution d q).T_Fe r c - (solve T r c).2) ^ 2)
    (i j : ℕ) (hij : i ≤ j) (hj : j ≤ (mkEvolution d q).nt - 2) :
    ((mkEvolution d q).run_constant_temperature solve).ric i
      ≤ ((mkEvolution d q).run_constant_temperature solve).ric j := by
  have hnt : (mkEvolution d q).nt = 1000 := rfl
  have hdt : 0 ≤ (mkEvolution d q).dt := by
    have hh : (mkEvolution d q).dt = 500 * year / 999 := rfl
    rw [hh, year]
    norm_num
  have hstep : ∀ k : ℕ, k + 1 ≤ (mkEvolution d q).nt - 2 →
      ((mkEvolution d q).run_constant_temperature solve).ric k
        ≤ ((mkEvolution d q).run_constant_temperature solve).ric (k + 1) := by
    intro k hk
    have hric := (run_const_step (mkEvolution d q) solve (k + 1) (by omega) (by omega)).2.2.1
    have hs : k + 1 - 1 = k := by omega
    rw [hs] at hric
    rw [hric]
    have hdr : 0 ≤ (solve (mkEvolution d q).T_center
        (((mkEvolution d q).run_constant_temperature solve).ric k) 0).1 := by
      rw [hsolve]
      have hG : (mkEvolution d q).G = 1e-4 := rfl
      rw [hG]
      positivity
    nlinarith [mul_nonneg hdr hdt]
  have chain : ∀ n, n ≤ (mkEvolution d q).nt - 2 →
      ∀ m, m ≤ n → ((mkEvolution d q).run_constant_temperature solve).ric m
        ≤ ((mkEvolution d q).run_constant_temperature solve).ric n := by
    intro n
    induction n with
    | zero =>
        intro _ m hm
        have hm0 : m = 0 := by omega
        subst hm0
        exact le_rfl
    | succ n ih =>
        intro hn m hm
        rcases Nat.eq_or_lt_of_le hm with he | hlt
        · subst he
          exact le_rfl
        · exact le_trans (ih (by omega) m (by omega)) (hstep n (by omega))
  exact chain j hj i hij

/-- Witness for C9: with the default scenario and the kinetic solver the
radius at sample 0 is below the radius at sample 5. -/
theorem ric_nondecreasing_witness :
    ((mkEvolution 100 (1e-12)).run_constant_temperature (gSolve 100 (1e-12))).ric 0
      ≤ ((mkEvolution 100 (1e-12)).run_constant_temperature (gSolve 100 (1e-12))).ric 5 :=
  ric_nondecreasing 100 (1e-12) (gSolve 100 (1e-12)) (by norm_num)
    (fun _ _ _ => rfl) 0 5 (by norm_num) (by norm_num [mkEvolution])

/-- A degenerate configuration: the default constants with zero specific
heat. -/
def cpZero : Evolution := { mkEvolution 100 (1e-12) with cp := 0 }

/-- C8 counterexample: with zero specific heat nothing fails at reset time
and stepping is still performed: after run_constant_temperature the first
loop iteration has executed, storing the solver output as dric[0] and the
Euler radius update as ric[0].  Constant-temperature mode never calls
dTcmb (cp enters only the residual system handed to the solver), so its
stepping cannot raise on cp = 0 and the embedding is exact here. -/
theorem reset_no_fastfail_counterexample :
    (cpZero.run_constant_temperature constSolver).dric 0 = 1
    ∧ (cpZero.run_constant_temperature constSolver).ric 0 = cpZero.dt := by
  have hnt : cpZero.nt = 1000 := rfl
  have h := run_const_step0 cpZero constSolver (by omega)
  refine ⟨h.1, ?_⟩
  rw [h.2.2.1]
  norm_num [constSolver]

/-- C8 amended: an invalid configuration is NOT detected at reset time:
reinitilization performs no validation and cannot fail, and even with a
degenerate configuration (zero specific heat) the constant-temperature
run executes its stepping loop, its first iteration storing the solver
output.  Only the constant-temperature mode is stated: it never calls
dTcmb, so the embedding is exact for cp = 0 there, whereas the evolving
run would reach the ZeroDivisionError of dTcmb inside its first
iteration (after reset, hence still with no reset-time fast failure). -/
theorem reset_no_validation (e : Evolution) (solve : Solver)
    (h2 : 2 ≤ e.nt) (hcp : e.cp = 0) :
    (e.run_constant_temperature solve).dric 0 = (solve e.T_center 0 0).1 :=
  (run_const_step0 e solve (by omega)).1

/-- Witness for C8 amended: the zero-specific-heat configuration steps in
constant-temperature mode. -/
theorem reset_no_validation_witness :
    (cpZero.run_constant_temperature constSolver).dric 0
        = (constSolver cpZero.T_center 0 0).1 :=
  reset_no_validation cpZero constSolver (by norm_num [cpZero, mkEvolution]) rfl
